import Mathlib

/-!
The `create` command of the runtime (`create.go`).

A shallow embedding of `create`, `uniqueContainerID`, `startShim` and
`createPIDFile`.

* A Go `error` is identified with its message; a function returning `error`
  returns `Option Error` (`none` is `nil`).
* The operating system and the collaborators (`loadConfiguration`,
  `oci.PodConfig`, `vc.CreatePod`, `os.StartProcess`) are not part of the source
  file.  Their answers are supplied by an environment `Env`; each of them is free
  to succeed or to fail.
* The state threaded through the code is a `World`: the file system, keyed by the
  literal path, and the trace of the calls made so far together with their
  outcome.
* Go's `int` is embedded in `Int`; the code does no arithmetic on it.
* Go strings are Lean strings and `len` is `String.length`.  The only string whose
  length the code takes is a decimal rendering, which is ASCII, so the number of
  characters is the number of bytes (`pidStr_utf8ByteSize`).
-/

namespace Runtime

/-- A Go `error` value, identified with its message. -/
abbrev Error := String

/-- What can sit at a path: a regular file with its content, or a directory. -/
inductive Node where
  | file (content : String)
  | dir
  deriving DecidableEq, Repr

/-- The file system: the node found at each literal path, if any. -/
abbrev FS := String → Option Node

/-- The part of `os.FileInfo` that `create` inspects. -/
structure FileInfo where
  isDir : Bool
  deriving DecidableEq, Repr

/-- The calls `create.go` makes to the operating system and to its collaborators. -/
inductive Call where
  | stat (path : String)
  | loadConfiguration (path : String)
  | podConfig (bundlePath containerID console : String)
  | createPod
  | startProcess (path : String) (argv : List String)
  | removeAll (path : String)
  | createFile (path : String)
  | writeString (path : String) (s : String) (n : Nat)
  deriving DecidableEq, Repr

/-- One entry of the trace: the call made and whether it returned a nil error. -/
structure Event where
  call : Call
  ok : Bool
  deriving DecidableEq, Repr

/-- The explicit state: the file system and the calls made so far, oldest first. -/
structure World where
  fs : FS
  trace : List Event

/-- The answers of everything outside `create.go`.  `RC` is the runtime
configuration type and `PC` the pod configuration type. -/
structure Env (RC PC : Type) where
  /-- A failure of `os.Stat` other than a missing path (permissions, I/O). -/
  statFault : String → Option Error
  /-- The collaborator `loadConfiguration`. -/
  loadConfiguration : String → Except Error RC
  /-- The collaborator `oci.PodConfig`. -/
  podConfig : RC → String → String → String → Except Error PC
  /-- The error returned by the collaborator `vc.CreatePod`; its pod is discarded. -/
  createPod : PC → Option Error
  /-- The outcome of `os.StartProcess`: the process id or an error. -/
  startProcess : String → List String → Except Error Int
  /-- A failure of `os.RemoveAll`. -/
  removeAllFault : String → Option Error
  /-- A failure of `os.Create` (missing parent, permissions, ...). -/
  createFault : String → Option Error
  /-- The result `(n, err)` of `WriteString` on the file at a path. -/
  write : String → String → Nat × Option Error

/-- The position of a call in the program text of `create`: the stat of the
validation, the three collaborators, the launch of the shim, then the three file
operations of `createPIDFile`. -/
def Call.rank : Call → Nat
  | .stat _ => 0
  | .loadConfiguration _ => 1
  | .podConfig _ _ _ => 2
  | .createPod => 3
  | .startProcess _ _ => 4
  | .removeAll _ => 5
  | .createFile _ => 6
  | .writeString _ _ _ => 7

/-- Whether a call is the write of the PID file. -/
def Call.isWrite : Call → Bool
  | .writeString _ _ _ => true
  | _ => false

/-- Whether a call is made to a collaborator or launches a process. -/
def Call.isCollaborator : Call → Bool
  | .loadConfiguration _ => true
  | .podConfig _ _ _ => true
  | .createPod => true
  | .startProcess _ _ => true
  | _ => false

/-- Whether a call can change the file system. -/
def Call.isMutation : Call → Bool
  | .removeAll _ => true
  | .createFile _ => true
  | .writeString _ _ _ => true
  | _ => false

/-! ## The file system primitives -/

/-- Whether `p` lies strictly below the directory `path`. -/
def isUnder (path p : String) : Bool :=
  (path.data ++ ['/']).isPrefixOf p.data

/-- The effect of a successful `os.RemoveAll path`: the path and everything
below it are gone. -/
def fsRemoveAll (fs : FS) (path : String) : FS :=
  fun p => if p = path ∨ isUnder path p = true then none else fs p

/-- The effect of a successful `os.Create path`: an empty regular file. -/
def fsCreate (fs : FS) (path : String) : FS :=
  fun p => if p = path then some (.file "") else fs p

/-- The effect of writing the first `n` bytes of `s` at offset 0 of the regular
file at `path`. -/
def fsWrite (fs : FS) (path : String) (s : String) (n : Nat) : FS :=
  match fs path with
  | some (.file old) =>
    fun p => if p = path then some (.file (s.take n ++ old.drop (s.take n).length)) else fs p
  | _ => fs

/-- Records a call in the trace. -/
def World.log (w : World) (c : Call) (ok : Bool) : World :=
  { w with trace := w.trace ++ [⟨c, ok⟩] }

/-- The model of `os.Stat`. -/
def osStat {RC PC : Type} (env : Env RC PC) (path : String) (w : World) :
    Except Error FileInfo × World :=
  match env.statFault path with
  | some err => (.error err, w.log (.stat path) false)
  | none =>
    match w.fs path with
    | none =>
      (.error ("stat " ++ path ++ ": no such file or directory"), w.log (.stat path) false)
    | some .dir => (.ok ⟨true⟩, w.log (.stat path) true)
    | some (.file _) => (.ok ⟨false⟩, w.log (.stat path) true)

/-- The model of `os.RemoveAll`.  A missing path is not an error; a failing call
is taken to leave the file system as it was. -/
def osRemoveAll {RC PC : Type} (env : Env RC PC) (path : String) (w : World) :
    Option Error × World :=
  match env.removeAllFault path with
  | some err => (some err, w.log (.removeAll path) false)
  | none => (none, { (w.log (.removeAll path) true) with fs := fsRemoveAll w.fs path })

/-- The model of `os.Create`: it creates the file or truncates an existing one.
The file handle is the path, at offset 0; a failing call leaves the file system
as it was. -/
def osCreate {RC PC : Type} (env : Env RC PC) (path : String) (w : World) :
    Except Error String × World :=
  match env.createFault path with
  | some err => (.error err, w.log (.createFile path) false)
  | none =>
    match w.fs path with
    | some .dir => (.error ("open " ++ path ++ ": is a directory"), w.log (.createFile path) false)
    | _ => (.ok path, { (w.log (.createFile path) true) with fs := fsCreate w.fs path })

/-- The model of `(*os.File).WriteString`: `n` bytes reach the file, whether or not
an error is reported. -/
def fileWriteString {RC PC : Type} (env : Env RC PC) (f : String) (s : String) (w : World) :
    (Nat × Option Error) × World :=
  let r := env.write f s
  (r, { (w.log (.writeString f s r.1) r.2.isNone) with fs := fsWrite w.fs f s r.1 })

/-- The model of `os.StartProcess`. -/
def osStartProcess {RC PC : Type} (env : Env RC PC) (name : String) (argv : List String)
    (w : World) : Except Error Int × World :=
  match env.startProcess name argv with
  | .error err => (.error err, w.log (.startProcess name argv) false)
  | .ok pid => (.ok pid, w.log (.startProcess name argv) true)

/-- The call of the collaborator `loadConfiguration`. -/
def loadConfiguration {RC PC : Type} (env : Env RC PC) (path : String) (w : World) :
    Except Error RC × World :=
  match env.loadConfiguration path with
  | .error err => (.error err, w.log (.loadConfiguration path) false)
  | .ok rc => (.ok rc, w.log (.loadConfiguration path) true)

/-- The call of the collaborator `oci.PodConfig`. -/
def ociPodConfig {RC PC : Type} (env : Env RC PC) (runtimeConfig : RC)
    (bundlePath containerID console : String) (w : World) : Except Error PC × World :=
  match env.podConfig runtimeConfig bundlePath containerID console with
  | .error err => (.error err, w.log (.podConfig bundlePath containerID console) false)
  | .ok pc => (.ok pc, w.log (.podConfig bundlePath containerID console) true)

/-- The call of the collaborator `vc.CreatePod`. -/
def vcCreatePod {RC PC : Type} (env : Env RC PC) (podConfig : PC) (w : World) :
    Option Error × World :=
  match env.createPod podConfig with
  | some err => (some err, w.log .createPod false)
  | none => (none, w.log .createPod true)

/-! ## `create.go` -/

/-- The constant `defaultShimPath`. -/
def defaultShimPath : String := "/usr/bin/shim"

/-- The function `uniqueContainerID`. -/
def uniqueContainerID (_containerID : String) : Bool := true

/-- The function `startShim`: the pair `(pid, err)` it returns.  The shim is
started with no arguments; the environment it inherits is not examined. -/
def startShim {RC PC : Type} (env : Env RC PC) (w : World) : (Int × Option Error) × World :=
  match osStartProcess env defaultShimPath [] w with
  | (.error err, w) => ((-1, some err), w)
  | (.ok pid, w) => ((pid, none), w)

/-- The rendering `fmt.Sprintf("%d", pid)`. -/
def pidStr (pid : Int) : String := toString pid

/-- The message of the short-write error. -/
def shortWriteError (n len : Nat) : Error :=
  "Could write pid to pid file: only " ++ toString n ++ " bytes written out of " ++ toString len

/-- The function `createPIDFile`. -/
def createPIDFile {RC PC : Type} (env : Env RC PC) (pidFilePath : String) (pid : Int)
    (w : World) : Option Error × World :=
  if pidFilePath = "" then (some "Missing PID file path", w) else
  match osRemoveAll env pidFilePath w with
  | (some err, w) => (some err, w)
  | (none, w) =>
    match osCreate env pidFilePath w with
    | (.error err, w) => (some err, w)
    | (.ok f, w) =>
      match fileWriteString env f (pidStr pid) w with
      | ((_, some err), w) => (some err, w)
      | ((n, none), w) =>
        if n < (pidStr pid).length then (some (shortWriteError n (pidStr pid).length), w)
        else (none, w)

/-- The function `create`. -/
def create {RC PC : Type} (env : Env RC PC)
    (containerID bundlePath console pidFilePath : String) (w : World) : Option Error × World :=
  if containerID = "" then (some "Missing container ID", w) else
  if uniqueContainerID containerID = false then
    (some "ID already in use, unique ID should be provided", w) else
  if bundlePath = "" then (some "Missing bundle path", w) else
  match osStat env bundlePath w with
  | (.error err, w) => (some ("Invalid bundle path: " ++ err), w)
  | (.ok fileInfo, w) =>
    if fileInfo.isDir = false then
      (some "Invalid bundle path, it should be a directory", w) else
    match loadConfiguration env "" w with
    | (.error err, w) => (some err, w)
    | (.ok runtimeConfig, w) =>
      match ociPodConfig env runtimeConfig bundlePath containerID console w with
      | (.error err, w) => (some err, w)
      | (.ok podConfig, w) =>
        match vcCreatePod env podConfig w with
        | (some err, w) => (some err, w)
        | (none, w) =>
          match startShim env w with
          | ((_, some err), w) => (some err, w)
          | ((pid, none), w) =>
            match createPIDFile env pidFilePath pid w with
            | (some err, w) => (some err, w)
            | (none, w) => (none, w)

/-! ## Reading the PID file back -/

/-- The number read from decimal digits, most significant first, continuing
from `init`. -/
def digitsValue (cs : List Char) (init : Nat) : Nat :=
  cs.foldl (fun n c => n * 10 + (c.toNat - '0'.toNat)) init

/-- The value of a non-empty string of decimal digits. -/
def parseDigits (cs : List Char) : Option Nat :=
  if cs ≠ [] ∧ cs.all Char.isDigit = true then some (digitsValue cs 0) else none

/-- Parses a decimal integer: an optional sign followed by one or more digits. -/
def parseInt (s : String) : Option Int :=
  match s.data with
  | '-' :: cs => (parseDigits cs).map (fun n => -(n : Int))
  | '+' :: cs => (parseDigits cs).map (fun n => (n : Int))
  | cs => (parseDigits cs).map (fun n => (n : Int))

/-! ## Traces -/

/-- The calls recorded in `w1` after the ones already present in `w`. -/
def World.since (w1 w : World) : List Event :=
  w1.trace.drop w.trace.length

/-- The effect on the file system of one recorded call. -/
def applyEvent (fs : FS) (e : Event) : FS :=
  match e.call, e.ok with
  | .removeAll path, true => fsRemoveAll fs path
  | .createFile path, true => fsCreate fs path
  | .writeString path s n, _ => fsWrite fs path s n
  | _, _ => fs

/-- The file system reached by replaying recorded calls, oldest first. -/
def replay (fs : FS) (evs : List Event) : FS :=
  evs.foldl applyEvent fs

/-! ## Concrete environments -/

/-- An environment in which every call succeeds, the shim gets process id `pid`
and every write is complete. -/
def okEnv (pid : Int) : Env Unit Unit where
  statFault := fun _ => none
  loadConfiguration := fun _ => .ok ()
  podConfig := fun _ _ _ _ => .ok ()
  createPod := fun _ => none
  startProcess := fun _ _ => .ok pid
  removeAllFault := fun _ => none
  createFault := fun _ => none
  write := fun _ s => (s.length, none)

/-- As `okEnv 42`, but the disk is full: the write of the PID file puts no byte
and reports an error. -/
def enospcEnv : Env Unit Unit :=
  { okEnv 42 with write := fun f _ => (0, some ("write " ++ f ++ ": no space left on device")) }

/-- As `okEnv 42`, but the write reports one byte more than it was given. -/
def overlongEnv : Env Unit Unit :=
  { okEnv 42 with write := fun _ s => (s.length + 1, none) }

/-- As `okEnv 42`, but the shim binary cannot be started. -/
def noShimEnv : Env Unit Unit :=
  { okEnv 42 with
    startProcess := fun name _ => .error ("fork/exec " ++ name ++ ": no such file or directory") }

/-- A file system holding only the bundle directory `/bundles/c1`. -/
def bundleFS : FS :=
  fun p => if p = "/bundles/c1" then some .dir else none

/-- The world before the first call: `bundleFS` and an empty trace. -/
def world0 : World := ⟨bundleFS, []⟩


/-! ## Decimal rendering and parsing -/

theorem digitChar_isDigit (d : Nat) (h : d < 10) : (Nat.digitChar d).isDigit = true := by
  interval_cases d <;> decide

theorem digitChar_value (d : Nat) (h : d < 10) : (Nat.digitChar d).toNat - '0'.toNat = d := by
  interval_cases d <;> decide

theorem digitChar_utf8Size (d : Nat) (h : d < 10) : (Nat.digitChar d).utf8Size = 1 := by
  interval_cases d <;> decide

theorem toDigitsCore_all (P : Char → Prop) (hP : ∀ d, d < 10 → P (Nat.digitChar d))
    (fuel n : Nat) (acc : List Char) (hacc : ∀ c ∈ acc, P c) :
    ∀ c ∈ Nat.toDigitsCore 10 fuel n acc, P c := by
  induction fuel generalizing n acc with
  | zero => simpa [Nat.toDigitsCore] using hacc
  | succ fuel ih =>
    have hd : P (Nat.digitChar (n % 10)) := hP _ (Nat.mod_lt _ (by decide))
    have hacc2 : ∀ c ∈ Nat.digitChar (n % 10) :: acc, P c := by
      intro c hc
      rcases List.mem_cons.mp hc with rfl | hc
      · exact hd
      · exact hacc c hc
    simp only [Nat.toDigitsCore]
    split
    · exact hacc2
    · exact ih _ _ hacc2

theorem toDigitsCore_ne_nil_of_acc (fuel n : Nat) (acc : List Char) (h : acc ≠ []) :
    Nat.toDigitsCore 10 fuel n acc ≠ [] := by
  induction fuel generalizing n acc with
  | zero => simpa [Nat.toDigitsCore] using h
  | succ fuel ih =>
    simp only [Nat.toDigitsCore]
    split
    · simp
    · exact ih _ _ (by simp)

theorem toDigits_ne_nil (n : Nat) : Nat.toDigits 10 n ≠ [] := by
  simp only [Nat.toDigits, Nat.toDigitsCore]
  split
  · simp
  · exact toDigitsCore_ne_nil_of_acc _ _ _ (by simp)

theorem toDigitsCore_value (fuel n : Nat) (acc : List Char) (h : n < fuel) :
    digitsValue (Nat.toDigitsCore 10 fuel n acc) 0 = digitsValue acc n := by
  induction fuel generalizing n acc with
  | zero => omega
  | succ fuel ih =>
    simp only [Nat.toDigitsCore]
    split
    · simp only [digitsValue, List.foldl_cons,
        digitChar_value _ (Nat.mod_lt n (by decide : 0 < 10))]
      congr 1
      omega
    · rw [ih _ _ (by omega)]
      simp only [digitsValue, List.foldl_cons,
        digitChar_value _ (Nat.mod_lt n (by decide : 0 < 10))]
      congr 1
      omega

theorem toDigits_isDigit (n : Nat) : ∀ c ∈ Nat.toDigits 10 n, c.isDigit = true :=
  toDigitsCore_all (fun c => c.isDigit = true) digitChar_isDigit _ _ _ (by simp)

theorem parseDigits_toDigits (n : Nat) : parseDigits (Nat.toDigits 10 n) = some n := by
  have hv : digitsValue (Nat.toDigits 10 n) 0 = n := by
    simpa [digitsValue] using toDigitsCore_value (n + 1) n [] (by omega)
  have hall : (Nat.toDigits 10 n).all Char.isDigit = true :=
    List.all_eq_true.mpr (toDigits_isDigit n)
  simp only [parseDigits, hall, and_true, toDigits_ne_nil n, ne_eq, not_false_eq_true, if_true]
  exact congrArg some hv

theorem pidStr_ofNat (m : Nat) : (pidStr (Int.ofNat m)).data = Nat.toDigits 10 m := rfl

theorem pidStr_negSucc (m : Nat) :
    (pidStr (Int.negSucc m)).data = '-' :: Nat.toDigits 10 (m + 1) := rfl

/-- Parsing the decimal rendering of an integer gives the integer back. -/
theorem parseInt_pidStr (pid : Int) : parseInt (pidStr pid) = some pid := by
  cases pid with
  | ofNat m =>
    have hd := toDigits_isDigit m
    unfold parseInt
    rw [pidStr_ofNat]
    split
    · rename_i cs heq
      have := hd '-' (by rw [heq]; simp)
      exact absurd this (by decide)
    · rename_i cs heq
      have := hd '+' (by rw [heq]; simp)
      exact absurd this (by decide)
    · simp [parseDigits_toDigits]
  | negSucc m =>
    unfold parseInt
    rw [pidStr_negSucc]
    simp only [parseDigits_toDigits, Option.map_some']
    rfl

theorem utf8ByteSize_go_eq (cs : List Char) (h : ∀ c ∈ cs, c.utf8Size = 1) :
    String.utf8ByteSize.go cs = cs.length := by
  induction cs with
  | nil => rfl
  | cons c cs ih =>
    simp only [String.utf8ByteSize.go, List.length_cons, h c (by simp)]
    rw [ih (fun c hc => h c (by simp [hc]))]

/-- The decimal rendering is ASCII: it has as many bytes as characters. -/
theorem pidStr_utf8ByteSize (pid : Int) : (pidStr pid).utf8ByteSize = (pidStr pid).length := by
  have hdig : ∀ m, ∀ c ∈ Nat.toDigits 10 m, c.utf8Size = 1 := fun m =>
    toDigitsCore_all (fun c => c.utf8Size = 1) digitChar_utf8Size _ _ _ (by simp)
  have key : ∀ c ∈ (pidStr pid).data, c.utf8Size = 1 := by
    cases pid with
    | ofNat m => rw [pidStr_ofNat]; exact hdig m
    | negSucc m =>
      rw [pidStr_negSucc]
      intro c hc
      rcases List.mem_cons.mp hc with rfl | hc
      · decide
      · exact hdig _ c hc
  show String.utf8ByteSize.go (pidStr pid).data = (pidStr pid).data.length
  exact utf8ByteSize_go_eq _ key

theorem take_of_length_le (s : String) (n : Nat) (h : s.length ≤ n) : s.take n = s := by
  apply String.ext
  rw [String.data_take]
  exact List.take_of_length_le h

/-! ## The file system primitives -/

theorem fsRemoveAll_self (fs : FS) (path : String) : fsRemoveAll fs path path = none := by
  simp [fsRemoveAll]

theorem fsWrite_created (fs : FS) (path s : String) (n : Nat) :
    fsWrite (fsCreate fs path) path s n path = some (.file (s.take n)) := by
  simp [fsWrite, fsCreate]

/-- Removing a path again after the PID file was written there leaves what the
first removal left. -/
theorem fsRemoveAll_written (fs : FS) (path s : String) (n : Nat) :
    fsRemoveAll (fsWrite (fsCreate (fsRemoveAll fs path) path) path s n) path
      = fsRemoveAll fs path := by
  funext p
  by_cases hp : p = path ∨ isUnder path p = true
  · simp [fsRemoveAll, hp]
  · have hne : p ≠ path := fun h => hp (Or.inl h)
    have hnu : ¬ isUnder path p = true := fun h => hp (Or.inr h)
    simp [fsRemoveAll, fsWrite, fsCreate, hne, hnu]

/-! ## The runs of `createPIDFile` -/

theorem createPIDFile_removeAll_failed {RC PC : Type} (env : Env RC PC) (path : String)
    (pid : Int) (w : World) (err : Error) (hp : path ≠ "")
    (hr : env.removeAllFault path = some err) :
    createPIDFile env path pid w = (some err, w.log (.removeAll path) false) := by
  simp [createPIDFile, osRemoveAll, hp, hr]

theorem createPIDFile_create_failed {RC PC : Type} (env : Env RC PC) (path : String)
    (pid : Int) (w : World) (err : Error) (hp : path ≠ "")
    (hr : env.removeAllFault path = none) (hc : env.createFault path = some err) :
    createPIDFile env path pid w =
      (some err, ⟨fsRemoveAll w.fs path,
        w.trace ++ [⟨.removeAll path, true⟩, ⟨.createFile path, false⟩]⟩) := by
  simp [createPIDFile, osRemoveAll, osCreate, World.log, hp, hr, hc]

/-- The run of `createPIDFile` once the removal and the creation have succeeded. -/
theorem createPIDFile_written {RC PC : Type} (env : Env RC PC) (path : String) (pid : Int)
    (w : World) (hp : path ≠ "") (hr : env.removeAllFault path = none)
    (hc : env.createFault path = none) :
    createPIDFile env path pid w =
      ((match (env.write path (pidStr pid)).2 with
        | some err => some err
        | none =>
          if (env.write path (pidStr pid)).1 < (pidStr pid).length then
            some (shortWriteError (env.write path (pidStr pid)).1 (pidStr pid).length)
          else none),
       ⟨fsWrite (fsCreate (fsRemoveAll w.fs path) path) path (pidStr pid)
          (env.write path (pidStr pid)).1,
        w.trace ++ [⟨.removeAll path, true⟩, ⟨.createFile path, true⟩,
          ⟨.writeString path (pidStr pid) (env.write path (pidStr pid)).1,
            (env.write path (pidStr pid)).2.isNone⟩]⟩) := by
  rcases hw : env.write path (pidStr pid) with ⟨n, _ | err⟩ <;>
    simp [createPIDFile, osRemoveAll, osCreate, fileWriteString, World.log, hp, hr, hc, hw,
      fsRemoveAll_self]
  split <;> simp

/-- A successful `createPIDFile` went through the removal, the creation and a
write that reported no error and at least the whole string. -/
theorem createPIDFile_ok_inv {RC PC : Type} (env : Env RC PC) (path : String) (pid : Int)
    (w : World) (hp : path ≠ "") (hok : (createPIDFile env path pid w).1 = none) :
    env.removeAllFault path = none ∧ env.createFault path = none ∧
      (env.write path (pidStr pid)).2 = none ∧
      (pidStr pid).length ≤ (env.write path (pidStr pid)).1 := by
  rcases hr : env.removeAllFault path with _ | err
  swap
  · rw [createPIDFile_removeAll_failed env path pid w err hp hr] at hok
    simp at hok
  rcases hc : env.createFault path with _ | err
  swap
  · rw [createPIDFile_create_failed env path pid w err hp hr hc] at hok
    simp at hok
  rw [createPIDFile_written env path pid w hp hr hc] at hok
  rcases hw : (env.write path (pidStr pid)).2 with _ | err
  · rw [hw] at hok
    simp only at hok
    refine ⟨rfl, rfl, rfl, ?_⟩
    by_contra hlt
    rw [if_pos (Nat.lt_of_not_le hlt)] at hok
    simp at hok
  · rw [hw] at hok
    simp at hok

/-! ## The create sequence -/

/-- C1: in every run of `create`, whatever the collaborators and the operating
system answer, the calls made are an initial segment of the program order (stat of
the bundle, `loadConfiguration`, `oci.PodConfig`, `vc.CreatePod`, the launch of the
shim, then the removal, creation and write of `createPIDFile`), each at most once;
every call but the last returned without error, and anything after the stat
happens only when validation passed; the write of the PID file, when it occurs, is
the last call, a successful run ends with it, and the final file system is the
initial one changed by the recorded calls only. -/
theorem create_steps_in_order {RC PC : Type} (env : Env RC PC)
    (containerID bundlePath console pidFilePath : String) (w : World) :
    ∃ evs : List Event,
      (create env containerID bundlePath console pidFilePath w).2.trace = w.trace ++ evs ∧
      evs.map (fun e => e.call.rank) = List.range evs.length ∧
      evs.length ≤ 8 ∧
      (∀ e ∈ evs.dropLast, e.ok = true) ∧
      (1 < evs.length →
        containerID ≠ "" ∧ bundlePath ≠ "" ∧ (osStat env bundlePath w).1 = .ok ⟨true⟩) ∧
      (∀ e ∈ evs, e.call.isWrite = true → evs.getLast? = some e) ∧
      ((create env containerID bundlePath console pidFilePath w).1 = none →
        ∃ e, evs.getLast? = some e ∧ e.call.isWrite = true ∧ e.ok = true) ∧
      (create env containerID bundlePath console pidFilePath w).2.fs = replay w.fs evs := by
  by_cases h1 : containerID = ""
  · exact ⟨[], by simp [create, h1, replay]⟩
  by_cases h3 : bundlePath = ""
  · exact ⟨[], by simp [create, h1, h3, uniqueContainerID, replay]⟩
  rcases hsf : env.statFault bundlePath with _ | e
  swap
  · exact ⟨[⟨.stat bundlePath, false⟩], by
      simp [create, h1, h3, uniqueContainerID, replay, osStat, hsf, World.log, Call.rank,
        List.range_succ, applyEvent, Call.isWrite]⟩
  rcases hfs : w.fs bundlePath with _ | (_ | _)
  · exact ⟨[⟨.stat bundlePath, false⟩], by
      simp [create, h1, h3, uniqueContainerID, replay, osStat, hsf, hfs, World.log, Call.rank,
        List.range_succ, applyEvent, Call.isWrite]⟩
  · exact ⟨[⟨.stat bundlePath, true⟩], by
      simp [create, h1, h3, uniqueContainerID, replay, osStat, hsf, hfs, World.log, Call.rank,
        List.range_succ, applyEvent, Call.isWrite]⟩
  rcases hlc : env.loadConfiguration "" with e | rc
  · exact ⟨[⟨.stat bundlePath, true⟩, ⟨.loadConfiguration "", false⟩], by
      simp [create, h1, h3, uniqueContainerID, replay, osStat, hsf, hfs, World.log, Call.rank,
        List.range_succ, applyEvent, Call.isWrite, loadConfiguration, hlc]⟩
  rcases hpc : env.podConfig rc bundlePath containerID console with e | pc
  · exact ⟨[⟨.stat bundlePath, true⟩, ⟨.loadConfiguration "", true⟩,
        ⟨.podConfig bundlePath containerID console, false⟩], by
      simp [create, h1, h3, uniqueContainerID, replay, osStat, hsf, hfs, World.log, Call.rank,
        List.range_succ, applyEvent, Call.isWrite, loadConfiguration, hlc, ociPodConfig, hpc]⟩
  rcases hcp : env.createPod pc with _ | e
  swap
  · exact ⟨[⟨.stat bundlePath, true⟩, ⟨.loadConfiguration "", true⟩,
        ⟨.podConfig bundlePath containerID console, true⟩, ⟨.createPod, false⟩], by
      simp [create, h1, h3, uniqueContainerID, replay, osStat, hsf, hfs, World.log, Call.rank,
        List.range_succ, applyEvent, Call.isWrite, loadConfiguration, hlc, ociPodConfig, hpc,
        vcCreatePod, hcp]⟩
  rcases hsp : env.startProcess defaultShimPath [] with e | pid
  · exact ⟨[⟨.stat bundlePath, true⟩, ⟨.loadConfiguration "", true⟩,
        ⟨.podConfig bundlePath containerID console, true⟩, ⟨.createPod, true⟩,
        ⟨.startProcess defaultShimPath [], false⟩], by
      simp [create, h1, h3, uniqueContainerID, replay, osStat, hsf, hfs, World.log, Call.rank,
        List.range_succ, applyEvent, Call.isWrite, loadConfiguration, hlc, ociPodConfig, hpc,
        vcCreatePod, hcp, startShim, osStartProcess, hsp]⟩
  by_cases h5 : pidFilePath = ""
  · exact ⟨[⟨.stat bundlePath, true⟩, ⟨.loadConfiguration "", true⟩,
        ⟨.podConfig bundlePath containerID console, true⟩, ⟨.createPod, true⟩,
        ⟨.startProcess defaultShimPath [], true⟩], by
      simp [create, h1, h3, uniqueContainerID, replay, osStat, hsf, hfs, World.log, Call.rank,
        List.range_succ, applyEvent, Call.isWrite, loadConfiguration, hlc, ociPodConfig, hpc,
        vcCreatePod, hcp, startShim, osStartProcess, hsp, createPIDFile, h5]⟩
  rcases hrf : env.removeAllFault pidFilePath with _ | e
  swap
  · exact ⟨[⟨.stat bundlePath, true⟩, ⟨.loadConfiguration "", true⟩,
        ⟨.podConfig bundlePath containerID console, true⟩, ⟨.createPod, true⟩,
        ⟨.startProcess defaultShimPath [], true⟩, ⟨.removeAll pidFilePath, false⟩], by
      simp [create, h1, h3, uniqueContainerID, replay, osStat, hsf, hfs, World.log, Call.rank,
        List.range_succ, applyEvent, Call.isWrite, loadConfiguration, hlc, ociPodConfig, hpc,
        vcCreatePod, hcp, startShim, osStartProcess, hsp, createPIDFile, h5, osRemoveAll, hrf]⟩
  rcases hcf : env.createFault pidFilePath with _ | e
  swap
  · exact ⟨[⟨.stat bundlePath, true⟩, ⟨.loadConfiguration "", true⟩,
        ⟨.podConfig bundlePath containerID console, true⟩, ⟨.createPod, true⟩,
        ⟨.startProcess defaultShimPath [], true⟩, ⟨.removeAll pidFilePath, true⟩,
        ⟨.createFile pidFilePath, false⟩], by
      simp [create, h1, h3, uniqueContainerID, replay, osStat, hsf, hfs, World.log, Call.rank,
        List.range_succ, applyEvent, Call.isWrite, loadConfiguration, hlc, ociPodConfig, hpc,
        vcCreatePod, hcp, startShim, osStartProcess, hsp, createPIDFile, h5, osRemoveAll, hrf,
        osCreate, hcf]⟩
  refine ⟨[⟨.stat bundlePath, true⟩, ⟨.loadConfiguration "", true⟩,
        ⟨.podConfig bundlePath containerID console, true⟩, ⟨.createPod, true⟩,
        ⟨.startProcess defaultShimPath [], true⟩, ⟨.removeAll pidFilePath, true⟩,
        ⟨.createFile pidFilePath, true⟩,
        ⟨.writeString pidFilePath (pidStr pid) (env.write pidFilePath (pidStr pid)).1,
          (env.write pidFilePath (pidStr pid)).2.isNone⟩], ?_⟩
  rcases hw : env.write pidFilePath (pidStr pid) with ⟨n, _ | e⟩
  · by_cases hn : n < (pidStr pid).length <;>
      simp [create, h1, h3, uniqueContainerID, replay, osStat, hsf, hfs, World.log, Call.rank,
        List.range_succ, applyEvent, Call.isWrite, loadConfiguration, hlc, ociPodConfig, hpc,
        vcCreatePod, hcp, startShim, osStartProcess, hsp, createPIDFile, h5, osRemoveAll, hrf,
        osCreate, hcf, fsRemoveAll_self, fileWriteString, hw, hn]
  · simp [create, h1, h3, uniqueContainerID, replay, osStat, hsf, hfs, World.log, Call.rank,
        List.range_succ, applyEvent, Call.isWrite, loadConfiguration, hlc, ociPodConfig, hpc,
        vcCreatePod, hcp, startShim, osStartProcess, hsp, createPIDFile, h5, osRemoveAll, hrf,
        osCreate, hcf, fsRemoveAll_self, fileWriteString, hw]

/-- C3: with an empty container ID, `create` fails with the missing-container-ID
error and does nothing: no call is recorded and the file system is untouched. -/
theorem create_empty_containerID {RC PC : Type} (env : Env RC PC)
    (bundlePath console pidFilePath : String) (w : World) :
    (create env "" bundlePath console pidFilePath w).1 = some "Missing container ID" ∧
      (create env "" bundlePath console pidFilePath w).2.since w = [] ∧
      (create env "" bundlePath console pidFilePath w).2.trace = w.trace ∧
      (create env "" bundlePath console pidFilePath w).2.fs = w.fs := by
  simp [create, World.since]

/-- C4: with a non-empty container ID and a non-empty bundle path whose stat fails
or finds something that is not a directory, `create` fails with an
invalid-bundle-path error; the stat is the only call made, so no collaborator is
called, no shim is launched and the file system, the PID file path included, is
untouched. -/
theorem create_invalid_bundle {RC PC : Type} (env : Env RC PC)
    (containerID bundlePath console pidFilePath : String) (w : World)
    (hid : containerID ≠ "") (hb : bundlePath ≠ "")
    (hstat : (osStat env bundlePath w).1 ≠ .ok ⟨true⟩) :
    ((create env containerID bundlePath console pidFilePath w).1
        = some "Invalid bundle path, it should be a directory" ∨
      ∃ err, (osStat env bundlePath w).1 = .error err ∧
        (create env containerID bundlePath console pidFilePath w).1
          = some ("Invalid bundle path: " ++ err)) ∧
      (∃ ok, (create env containerID bundlePath console pidFilePath w).2.since w
        = [⟨.stat bundlePath, ok⟩]) ∧
      (∀ e ∈ (create env containerID bundlePath console pidFilePath w).2.since w,
        e.call.isCollaborator = false ∧ e.call.isMutation = false) ∧
      (create env containerID bundlePath console pidFilePath w).2.fs = w.fs := by
  rcases hsf : env.statFault bundlePath with _ | e
  swap
  · simp [create, hid, hb, uniqueContainerID, osStat, hsf, World.log, World.since,
      Call.isCollaborator, Call.isMutation]
  rcases hfs : w.fs bundlePath with _ | (_ | _)
  · simp [create, hid, hb, uniqueContainerID, osStat, hsf, hfs, World.log, World.since,
      Call.isCollaborator, Call.isMutation]
  · simp [create, hid, hb, uniqueContainerID, osStat, hsf, hfs, World.log, World.since,
      Call.isCollaborator, Call.isMutation]
  · simp [osStat, hsf, hfs] at hstat

/-- Witness of C4: the bundle path `/nonexistent` in a file system that holds only
`/bundles/c1`. -/
theorem create_invalid_bundle_witness :
    ((create (okEnv 42) "c1" "/nonexistent" "" "/run/c1.pid" world0).1
        = some "Invalid bundle path, it should be a directory" ∨
      ∃ err, (osStat (okEnv 42) "/nonexistent" world0).1 = .error err ∧
        (create (okEnv 42) "c1" "/nonexistent" "" "/run/c1.pid" world0).1
          = some ("Invalid bundle path: " ++ err)) ∧
      (∃ ok, (create (okEnv 42) "c1" "/nonexistent" "" "/run/c1.pid" world0).2.since world0
        = [⟨.stat "/nonexistent", ok⟩]) ∧
      (∀ e ∈ (create (okEnv 42) "c1" "/nonexistent" "" "/run/c1.pid" world0).2.since world0,
        e.call.isCollaborator = false ∧ e.call.isMutation = false) ∧
      (create (okEnv 42) "c1" "/nonexistent" "" "/run/c1.pid" world0).2.fs = world0.fs :=
  create_invalid_bundle (okEnv 42) "c1" "/nonexistent" "" "/run/c1.pid" world0
    (by decide) (by decide) (by simp [osStat, okEnv, world0, bundleFS])

/-- C5: when validation, configuration and pod provisioning succeed but the shim
cannot be started, `startShim` returns `-1` with the launch error, `create`
returns exactly that error, and the file system is the same before and after: no
removal, creation or write is made, at the PID file path or anywhere else. -/
theorem create_shim_failure {RC PC : Type} (env : Env RC PC)
    (containerID bundlePath console pidFilePath : String) (w : World)
    (rc : RC) (pc : PC) (err : Error)
    (hid : containerID ≠ "") (hb : bundlePath ≠ "")
    (hstat : (osStat env bundlePath w).1 = .ok ⟨true⟩)
    (hlc : env.loadConfiguration "" = .ok rc)
    (hpc : env.podConfig rc bundlePath containerID console = .ok pc)
    (hcp : env.createPod pc = none)
    (hsp : env.startProcess defaultShimPath [] = .error err) :
    (startShim env w).1 = (-1, some err) ∧
      (create env containerID bundlePath console pidFilePath w).1 = some err ∧
      (create env containerID bundlePath console pidFilePath w).2.fs = w.fs ∧
      (create env containerID bundlePath console pidFilePath w).2.fs pidFilePath
        = w.fs pidFilePath ∧
      (∀ e ∈ (create env containerID bundlePath console pidFilePath w).2.since w,
        e.call.isMutation = false) := by
  rcases hsf : env.statFault bundlePath with _ | e
  swap
  · simp [osStat, hsf] at hstat
  rcases hfs : w.fs bundlePath with _ | (_ | _)
  · simp [osStat, hsf, hfs] at hstat
  · simp [osStat, hsf, hfs] at hstat
  · simp [create, hid, hb, uniqueContainerID, osStat, hsf, hfs, World.log, World.since,
      loadConfiguration, hlc, ociPodConfig, hpc, vcCreatePod, hcp, startShim, osStartProcess,
      hsp, Call.isMutation]

/-- Witness of C5: a valid bundle and a missing shim binary. -/
theorem create_shim_failure_witness :
    (startShim noShimEnv world0).1
        = (-1, some "fork/exec /usr/bin/shim: no such file or directory") ∧
      (create noShimEnv "c1" "/bundles/c1" "" "/run/c1.pid" world0).1
        = some "fork/exec /usr/bin/shim: no such file or directory" ∧
      (create noShimEnv "c1" "/bundles/c1" "" "/run/c1.pid" world0).2.fs = world0.fs ∧
      (create noShimEnv "c1" "/bundles/c1" "" "/run/c1.pid" world0).2.fs "/run/c1.pid"
        = world0.fs "/run/c1.pid" ∧
      (∀ e ∈ (create noShimEnv "c1" "/bundles/c1" "" "/run/c1.pid" world0).2.since world0,
        e.call.isMutation = false) :=
  create_shim_failure noShimEnv "c1" "/bundles/c1" "" "/run/c1.pid" world0 () ()
    "fork/exec /usr/bin/shim: no such file or directory"
    (by decide) (by decide) (by simp [osStat, noShimEnv, okEnv, world0, bundleFS])
    rfl rfl rfl (by simp [noShimEnv, okEnv, defaultShimPath])

/-! ## The PID file -/

/-- C6: when `createPIDFile` succeeds on a non-empty path, the file at that path
holds exactly the decimal string of the pid, its length in characters and in bytes
is the length of that string, and parsing it gives the pid back. -/
theorem createPIDFile_round_trip {RC PC : Type} (env : Env RC PC) (path : String) (pid : Int)
    (w : World) (hp : path ≠ "") (hok : (createPIDFile env path pid w).1 = none) :
    ∃ content, (createPIDFile env path pid w).2.fs path = some (.file content) ∧
      content = pidStr pid ∧
      content.length = (pidStr pid).length ∧
      content.utf8ByteSize = (pidStr pid).length ∧
      parseInt content = some pid := by
  obtain ⟨hr, hc, _, hlen⟩ := createPIDFile_ok_inv env path pid w hp hok
  refine ⟨pidStr pid, ?_, rfl, rfl, pidStr_utf8ByteSize pid, parseInt_pidStr pid⟩
  rw [createPIDFile_written env path pid w hp hr hc]
  show fsWrite (fsCreate (fsRemoveAll w.fs path) path) path (pidStr pid)
    (env.write path (pidStr pid)).1 path = _
  rw [fsWrite_created, take_of_length_le _ _ hlen]

/-- Witness of C6: the pid 42 written to `/run/c1.pid`. -/
theorem createPIDFile_round_trip_witness :
    ∃ content, (createPIDFile (okEnv 42) "/run/c1.pid" 42 world0).2.fs "/run/c1.pid"
        = some (.file content) ∧
      content = pidStr 42 ∧
      content.length = (pidStr 42).length ∧
      content.utf8ByteSize = (pidStr 42).length ∧
      parseInt content = some 42 :=
  createPIDFile_round_trip (okEnv 42) "/run/c1.pid" 42 world0 (by decide) (by decide)

/-- C7: when `createPIDFile` succeeds twice in a row on the same non-empty path,
first with `pid1` and then with `pid2`, the file holds exactly the decimal string
of `pid2`, and the whole file system is the one a single `createPIDFile` with
`pid2` produces. -/
theorem createPIDFile_overwrite {RC PC : Type} (env1 env2 : Env RC PC) (path : String)
    (pid1 pid2 : Int) (w : World) (hp : path ≠ "")
    (h1 : (createPIDFile env1 path pid1 w).1 = none)
    (h2 : (createPIDFile env2 path pid2 (createPIDFile env1 path pid1 w).2).1 = none) :
    (createPIDFile env2 path pid2 (createPIDFile env1 path pid1 w).2).2.fs path
        = some (.file (pidStr pid2)) ∧
      (createPIDFile env2 path pid2 (createPIDFile env1 path pid1 w).2).2.fs
        = (createPIDFile env2 path pid2 w).2.fs := by
  obtain ⟨hr1, hc1, _, _⟩ := createPIDFile_ok_inv env1 path pid1 w hp h1
  obtain ⟨hr2, hc2, _, hlen2⟩ := createPIDFile_ok_inv env2 path pid2 _ hp h2
  have hfs : (createPIDFile env2 path pid2 (createPIDFile env1 path pid1 w).2).2.fs
      = (createPIDFile env2 path pid2 w).2.fs := by
    rw [createPIDFile_written env2 path pid2 _ hp hr2 hc2,
      createPIDFile_written env2 path pid2 w hp hr2 hc2,
      createPIDFile_written env1 path pid1 w hp hr1 hc1]
    show fsWrite (fsCreate (fsRemoveAll (fsWrite (fsCreate (fsRemoveAll w.fs path) path) path
      (pidStr pid1) (env1.write path (pidStr pid1)).1) path) path) path (pidStr pid2)
      (env2.write path (pidStr pid2)).1 = _
    rw [fsRemoveAll_written]
  refine ⟨?_, hfs⟩
  rw [hfs, createPIDFile_written env2 path pid2 w hp hr2 hc2]
  show fsWrite (fsCreate (fsRemoveAll w.fs path) path) path (pidStr pid2)
    (env2.write path (pidStr pid2)).1 path = _
  rw [fsWrite_created, take_of_length_le _ _ hlen2]

/-- Witness of C7: the pid 4242 and then the pid 7 written to `/run/c1.pid`. -/
theorem createPIDFile_overwrite_witness :
    (createPIDFile (okEnv 7) "/run/c1.pid" 7
        (createPIDFile (okEnv 4242) "/run/c1.pid" 4242 world0).2).2.fs "/run/c1.pid"
        = some (.file (pidStr 7)) ∧
      (createPIDFile (okEnv 7) "/run/c1.pid" 7
        (createPIDFile (okEnv 4242) "/run/c1.pid" 4242 world0).2).2.fs
        = (createPIDFile (okEnv 7) "/run/c1.pid" 7 world0).2.fs :=
  createPIDFile_overwrite (okEnv 4242) (okEnv 7) "/run/c1.pid" 4242 7 world0
    (by decide) (by decide) (by decide)

/-- C8: with an empty path, `createPIDFile` fails with the missing-PID-file-path
error whatever the pid, and does nothing: the world it returns, file system and
trace, is the one it was given. -/
theorem createPIDFile_empty_path {RC PC : Type} (env : Env RC PC) (pid : Int) (w : World) :
    createPIDFile env "" pid w = (some "Missing PID file path", w) ∧
      (createPIDFile env "" pid w).2.fs = w.fs ∧
      (createPIDFile env "" pid w).2.since w = [] ∧
      (∀ pid2 : Int, createPIDFile env "" pid2 w = createPIDFile env "" pid w) := by
  simp [createPIDFile, World.since]

/-- C10, as the code has it: once the removal and the creation have succeeded,
`createPIDFile` succeeds exactly when the write reports no error and at least as
many bytes as the decimal string has; an error reported by the write is returned
as it is, whatever the byte count; a write that reports no error and fewer bytes
fails with the short-write error. -/
theorem createPIDFile_write_check {RC PC : Type} (env : Env RC PC) (path : String) (pid : Int)
    (w : World) (hp : path ≠ "") (hr : env.removeAllFault path = none)
    (hc : env.createFault path = none) :
    ((createPIDFile env path pid w).1 = none ↔
        (env.write path (pidStr pid)).2 = none ∧
          (pidStr pid).length ≤ (env.write path (pidStr pid)).1) ∧
      (∀ err, (env.write path (pidStr pid)).2 = some err →
        (createPIDFile env path pid w).1 = some err) ∧
      ((env.write path (pidStr pid)).2 = none →
        (env.write path (pidStr pid)).1 < (pidStr pid).length →
        (createPIDFile env path pid w).1
          = some (shortWriteError (env.write path (pidStr pid)).1 (pidStr pid).length)) := by
  rw [createPIDFile_written env path pid w hp hr hc]
  rcases hw : (env.write path (pidStr pid)).2 with _ | err
  · by_cases hn : (env.write path (pidStr pid)).1 < (pidStr pid).length
    · simp [hn]
    · simp [hn, Nat.le_of_not_lt hn]
  · simp

/-- Witness of C10: a complete write of the pid 42 to `/run/c1.pid`. -/
theorem createPIDFile_write_check_witness :
    ((createPIDFile (okEnv 42) "/run/c1.pid" 42 world0).1 = none ↔
        ((okEnv 42).write "/run/c1.pid" (pidStr 42)).2 = none ∧
          (pidStr 42).length ≤ ((okEnv 42).write "/run/c1.pid" (pidStr 42)).1) ∧
      (∀ err, ((okEnv 42).write "/run/c1.pid" (pidStr 42)).2 = some err →
        (createPIDFile (okEnv 42) "/run/c1.pid" 42 world0).1 = some err) ∧
      (((okEnv 42).write "/run/c1.pid" (pidStr 42)).2 = none →
        ((okEnv 42).write "/run/c1.pid" (pidStr 42)).1 < (pidStr 42).length →
        (createPIDFile (okEnv 42) "/run/c1.pid" 42 world0).1
          = some (shortWriteError ((okEnv 42).write "/run/c1.pid" (pidStr 42)).1
              (pidStr 42).length)) :=
  createPIDFile_write_check (okEnv 42) "/run/c1.pid" 42 world0 (by decide) rfl rfl

/-- C10 as stated fails: a write that puts 0 of the 2 bytes and reports an error
makes `createPIDFile` return that error, not the short-write error; and a write
that reports 3 bytes for the 2-byte string and no error makes it succeed although
the count differs from the length. -/
theorem createPIDFile_write_check_counterexample :
    (enospcEnv.removeAllFault "/run/c1.pid" = none ∧
      enospcEnv.createFault "/run/c1.pid" = none ∧
      (enospcEnv.write "/run/c1.pid" (pidStr 42)).1 ≠ (pidStr 42).length ∧
      (createPIDFile enospcEnv "/run/c1.pid" 42 world0).1
        = some "write /run/c1.pid: no space left on device" ∧
      (createPIDFile enospcEnv "/run/c1.pid" 42 world0).1
        ≠ some (shortWriteError (enospcEnv.write "/run/c1.pid" (pidStr 42)).1
            (pidStr 42).length)) ∧
    (overlongEnv.removeAllFault "/run/c1.pid" = none ∧
      overlongEnv.createFault "/run/c1.pid" = none ∧
      (overlongEnv.write "/run/c1.pid" (pidStr 42)).2 = none ∧
      (overlongEnv.write "/run/c1.pid" (pidStr 42)).1 ≠ (pidStr 42).length ∧
      (createPIDFile overlongEnv "/run/c1.pid" 42 world0).1 = none) := by
  decide

/-! ## Where the code departs from its own documentation -/

/-- C2 fails on the code: starting with nothing at `/run/c1.pid`, a run in which
every step up to the creation of the PID file succeeds and the write then fails
returns the write error and leaves an empty file at `/run/c1.pid`. -/
theorem create_failed_write_leaves_pid_file :
    world0.fs "/run/c1.pid" = none ∧
      (create enospcEnv "c1" "/bundles/c1" "" "/run/c1.pid" world0).1
        = some "write /run/c1.pid: no space left on device" ∧
      (create enospcEnv "c1" "/bundles/c1" "" "/run/c1.pid" world0).2.fs "/run/c1.pid"
        = some (.file "") := by
  decide

/-- What does hold of a PID file found after a run that started without one:
every step up to and including the creation of the file succeeded, and the run
succeeded exactly when the write was complete.  Only a failing or short write
separates the presence of the file from success. -/
theorem create_pid_file_present {RC PC : Type} (env : Env RC PC)
    (containerID bundlePath console pidFilePath : String) (w : World)
    (habsent : w.fs pidFilePath = none)
    (hpresent : (create env containerID bundlePath console pidFilePath w).2.fs pidFilePath
      ≠ none) :
    env.removeAllFault pidFilePath = none ∧ env.createFault pidFilePath = none ∧
      ∃ pid, env.startProcess defaultShimPath [] = .ok pid ∧
        ((create env containerID bundlePath console pidFilePath w).1 = none ↔
          (env.write pidFilePath (pidStr pid)).2 = none ∧
            (pidStr pid).length ≤ (env.write pidFilePath (pidStr pid)).1) := by
  by_cases h1 : containerID = ""
  · simp [create, h1, habsent] at hpresent
  by_cases h3 : bundlePath = ""
  · simp [create, h1, h3, uniqueContainerID, habsent] at hpresent
  rcases hsf : env.statFault bundlePath with _ | e
  swap
  · simp [create, h1, h3, uniqueContainerID, osStat, hsf, World.log, habsent] at hpresent
  rcases hfs : w.fs bundlePath with _ | (_ | _)
  · simp [create, h1, h3, uniqueContainerID, osStat, hsf, hfs, World.log, habsent] at hpresent
  · simp [create, h1, h3, uniqueContainerID, osStat, hsf, hfs, World.log, habsent] at hpresent
  rcases hlc : env.loadConfiguration "" with e | rc
  · simp [create, h1, h3, uniqueContainerID, osStat, hsf, hfs, World.log, habsent,
      loadConfiguration, hlc] at hpresent
  rcases hpc : env.podConfig rc bundlePath containerID console with e | pc
  · simp [create, h1, h3, uniqueContainerID, osStat, hsf, hfs, World.log, habsent,
      loadConfiguration, hlc, ociPodConfig, hpc] at hpresent
  rcases hcp : env.createPod pc with _ | e
  swap
  · simp [create, h1, h3, uniqueContainerID, osStat, hsf, hfs, World.log, habsent,
      loadConfiguration, hlc, ociPodConfig, hpc, vcCreatePod, hcp] at hpresent
  rcases hsp : env.startProcess defaultShimPath [] with e | pid
  · simp [create, h1, h3, uniqueContainerID, osStat, hsf, hfs, World.log, habsent,
      loadConfiguration, hlc, ociPodConfig, hpc, vcCreatePod, hcp, startShim, osStartProcess,
      hsp] at hpresent
  by_cases h5 : pidFilePath = ""
  · simp [create, h1, h3, uniqueContainerID, osStat, hsf, hfs, World.log,
      loadConfiguration, hlc, ociPodConfig, hpc, vcCreatePod, hcp, startShim, osStartProcess,
      hsp, createPIDFile, h5] at hpresent
    exact absurd (h5 ▸ habsent) hpresent
  rcases hrf : env.removeAllFault pidFilePath with _ | e
  swap
  · simp [create, h1, h3, uniqueContainerID, osStat, hsf, hfs, World.log, habsent,
      loadConfiguration, hlc, ociPodConfig, hpc, vcCreatePod, hcp, startShim, osStartProcess,
      hsp, createPIDFile, h5, osRemoveAll, hrf] at hpresent
  rcases hcf : env.createFault pidFilePath with _ | e
  swap
  · simp [create, h1, h3, uniqueContainerID, osStat, hsf, hfs, World.log, habsent,
      loadConfiguration, hlc, ociPodConfig, hpc, vcCreatePod, hcp, startShim, osStartProcess,
      hsp, createPIDFile, h5, osRemoveAll, hrf, osCreate, hcf, fsRemoveAll_self] at hpresent
  refine ⟨rfl, rfl, pid, rfl, ?_⟩
  rcases hw : env.write pidFilePath (pidStr pid) with ⟨n, _ | e⟩
  · by_cases hn : n < (pidStr pid).length
    · simp [create, h1, h3, uniqueContainerID, osStat, hsf, hfs, World.log,
        loadConfiguration, hlc, ociPodConfig, hpc, vcCreatePod, hcp, startShim, osStartProcess,
        hsp, createPIDFile, h5, osRemoveAll, hrf, osCreate, hcf, fsRemoveAll_self,
        fileWriteString, hw, hn]
    · simp [create, h1, h3, uniqueContainerID, osStat, hsf, hfs, World.log,
        loadConfiguration, hlc, ociPodConfig, hpc, vcCreatePod, hcp, startShim, osStartProcess,
        hsp, createPIDFile, h5, osRemoveAll, hrf, osCreate, hcf, fsRemoveAll_self,
        fileWriteString, hw, hn, Nat.le_of_not_lt hn]
  · simp [create, h1, h3, uniqueContainerID, osStat, hsf, hfs, World.log,
      loadConfiguration, hlc, ociPodConfig, hpc, vcCreatePod, hcp, startShim, osStartProcess,
      hsp, createPIDFile, h5, osRemoveAll, hrf, osCreate, hcf, fsRemoveAll_self,
      fileWriteString, hw]

/-- C9 fails on the code: `uniqueContainerID` answers `true` for an ID that a
first successful `create` has just taken, and a second `create` with the same ID
succeeds instead of failing with the ID-already-in-use error. -/
theorem create_twice_same_containerID :
    (create (okEnv 42) "c1" "/bundles/c1" "" "/run/c1.pid" world0).1 = none ∧
      uniqueContainerID "c1" = true ∧
      (create (okEnv 43) "c1" "/bundles/c1" "" "/run/c1.pid"
        (create (okEnv 42) "c1" "/bundles/c1" "" "/run/c1.pid" world0).2).1 = none ∧
      (create (okEnv 43) "c1" "/bundles/c1" "" "/run/c1.pid"
        (create (okEnv 42) "c1" "/bundles/c1" "" "/run/c1.pid" world0).2).1
        ≠ some "ID already in use, unique ID should be provided" := by
  decide

end Runtime
